import Mathlib

/-!
Shallow embedding of the sweep/measurement loops of DasMessProgramm
(src/measurement/*.py).  Physical readings (voltages, currents, fields,
temperatures) are idealised as rationals; device and signal effects are
recorded as explicit counters and lists; a Python exception escaping a
piece of code is modelled as `Except.error ()`.
-/

namespace DasMess

/-! ## The voltage-sweep measurement loop

`SMU2Probe2636A._measure` (src/measurement/smu_2probe_2636A.py, lines 39-59):

    for voltage in np.linspace(0, self._max_voltage, self._number_of_points):
        if self._should_stop.is_set():
            print("DEBUG: Aborting measurement.")
            self._signal_interface.emit_aborted()
            break
        self._device.set_voltage(voltage)
        voltage, current = self._measure_data_point()
        file_handle.write(...); file_handle.flush()
        self._signal_interface.emit_data(...)
    self._deinitialize_device()

The same check-abort-break / set-voltage / sample pattern is the body of
`SMU2ProbeHSweep2636A._sweep_voltage` (src/measurement/smu_2probe_hSweep_2636A.py,
lines 117-126).  The trajectory is an arbitrary finite list of set-points;
`stop i` is the value of `self._should_stop.is_set()` observed at the check
before step `i`; `sample i` is the outcome of `self._measure_data_point()`
at step `i` (`Except.error ()` models the call raising).  There is no
try/finally in the source: an exception from the loop body propagates out
of `_measure`, past the final `self._deinitialize_device()` call. -/

/-- Events of one run of `SMU2Probe2636A._measure`: number of recorded data
points, the set-points actually applied to the device, whether
`emit_aborted` was called, whether an exception escaped the loop, and how
many times `_deinitialize_device` ran. -/
structure SmuOutcome where
  records : ℕ
  setpoints : List ℚ
  aborted : Bool
  exn : Bool
  deinits : ℕ
  deriving DecidableEq

/-- The `for voltage in ...` loop of `SMU2Probe2636A._measure`, from the
trajectory tail and the index of the current step.  `deinits` is filled in
by `smuMeasure`. -/
def smuLoop (sample : ℕ → Except Unit (ℚ × ℚ)) (stop : ℕ → Bool) :
    List ℚ → ℕ → SmuOutcome
  | [], _ => ⟨0, [], false, false, 0⟩
  | v :: rest, i =>
    if stop i then
      ⟨0, [], true, false, 0⟩
    else
      match sample i with
      | Except.error _ => ⟨0, [v], false, true, 0⟩
      | Except.ok _ =>
        let o := smuLoop sample stop rest (i + 1)
        ⟨o.records + 1, v :: o.setpoints, o.aborted, o.exn, 0⟩

/-- `SMU2Probe2636A._measure` after device initialisation: run the sweep
loop over the trajectory; `_deinitialize_device()` is the next statement
after the loop, so it runs exactly when no exception escaped the loop. -/
def smuMeasure (sample : ℕ → Except Unit (ℚ × ℚ)) (stop : ℕ → Bool)
    (traj : List ℚ) : SmuOutcome :=
  let o := smuLoop sample stop traj 0
  { o with deinits := if o.exn then 0 else 1 }

/-- The cancellation flag as observed by the loop when it is set externally
after `k` completed steps: every check from step `k` on sees it set. -/
def cancelAfter (k : ℕ) (i : ℕ) : Bool := decide (k ≤ i)

/-! ## The monitoring measurement loop

`SRS830RvTBlue._measure` (src/measurement/srs_temp_sweep.py, lines 102-124)
and `SMU2ProbeIvTBlue._measure` (src/measurement/smu_2636A_2probe_TSweep_IvT.py,
lines 132-157) run

    while not self._should_stop.is_set():
        try:
            self._acquire_data_point(file_handle)
        except:
            print('{} failed to acquire datapoint.'.format(...)); traceback.print_exc()
        ...
        if self._check_temp_reached():
            self._should_stop.set()
    self.__deinitialize_device()

`acqOk i` says whether tick `i`'s `_acquire_data_point` succeeds (a failure
is caught and only logged), `reached i` whether tick `i`'s convergence check
returns True.  The while loop has no a-priori bound, so the model carries
fuel; `fuelOut = true` marks the model's fuel running out with the loop
still going. -/

/-- Events of one run of the monitoring loop: recorded data points, how many
times teardown ran, and whether the model's fuel ran out. -/
structure SrsOutcome where
  records : ℕ
  deinits : ℕ
  fuelOut : Bool
  deriving DecidableEq

/-- The `while not self._should_stop.is_set()` loop of
`SRS830RvTBlue._measure`, with teardown running once the convergence check
sets the stop flag: fuel, current tick, records so far. -/
def srsLoop (acqOk reached : ℕ → Bool) : ℕ → ℕ → ℕ → SrsOutcome
  | 0, _, acc => ⟨acc, 0, true⟩
  | fuel + 1, i, acc =>
    let acc2 := if acqOk i then acc + 1 else acc
    if reached i then ⟨acc2, 1, false⟩
    else srsLoop acqOk reached fuel (i + 1) acc2

/-! ## The temperature-convergence detector

`SRS830RvTBlue._check_temp_reached` (src/measurement/srs_temp_sweep.py,
lines 181-212):

    if np.abs(self._temp.T1 - self._temperature_end) > 1.0:
        return False
    else:
        maximal_list_len = 10
        stability_rate = 0.1/120
        ... T3 = self._temp.T3 ...
        if len(self._last_temperatures) < maximal_list_len:
            self._last_temperatures.append(T3); return False
        else:
            self._last_temperatures = self._last_temperatures[-maximal_list_len:]
            self._last_temperatures.append(T3)
            try:
                rate, mean = np.polyfit(np.arange(0,len(self._last_temperatures)),
                                        self._last_temperatures, 1)
            except:
                print('ERROR', ...); traceback.print_exc()
            if np.abs(rate) < stability_rate: return True
            else: return False

`fitFails` says whether this call's `np.polyfit` raises; when it does, the
except block only logs, `rate` is left unassigned, and `np.abs(rate)`
raises UnboundLocalError out of the method (modelled as `Except.error ()`)
-- the window has already been mutated at that point.
`SMU2ProbeIvTBlue._check_temp_reached` (src/measurement/smu_2636A_2probe_TSweep_IvT.py,
lines 161-192) is identical except its fast path tests the signed
difference `(self._temp.T1 - self._temperature_end) > 1.0` without `np.abs`. -/

/-- `maximal_list_len = 10` of `_check_temp_reached`. -/
def maximal_list_len : ℕ := 10

/-- `stability_rate = 0.1/120` of `_check_temp_reached`. -/
def stability_rate : ℚ := 0.1 / 120

/-- The slope returned by `np.polyfit(np.arange(0, len(ys)), ys, 1)`: the
least-squares line fit over x-values `0, 1, ..., len(ys) - 1`, in exact
rational arithmetic. -/
def polyfitSlope (ys : List ℚ) : ℚ :=
  let n : ℚ := ys.length
  let xs : List ℚ := (List.range ys.length).map (fun i => (i : ℚ))
  let sx := xs.sum
  let sy := ys.sum
  let sxx := (xs.map (fun x => x * x)).sum
  let sxy := (List.zipWith (fun x y => x * y) xs ys).sum
  (n * sxy - sx * sy) / (n * sxx - sx * sx)

/-- `SRS830RvTBlue._check_temp_reached`: given this call's readings `T1`
(control sensor), `T3` (monitored sensor), the target `Tend` and the window
`self._last_temperatures`, returns the result (`Except.error ()` for the
UnboundLocalError after a fit failure) and the new window. -/
def checkTempReached (fitFails : Bool) (T1 Tend T3 : ℚ) (w : List ℚ) :
    Except Unit Bool × List ℚ :=
  if |T1 - Tend| > 1 then (Except.ok false, w)
  else if w.length < maximal_list_len then (Except.ok false, w ++ [T3])
  else
    let w2 := w.drop (w.length - maximal_list_len) ++ [T3]
    if fitFails then (Except.error (), w2)
    else if |polyfitSlope w2| < stability_rate then (Except.ok true, w2)
    else (Except.ok false, w2)

/-- `SMU2ProbeIvTBlue._check_temp_reached`: same as `checkTempReached` but
with the signed fast-path guard `(T1 - Tend) > 1.0` of
src/measurement/smu_2636A_2probe_TSweep_IvT.py line 162. -/
def checkTempReachedIvT (fitFails : Bool) (T1 Tend T3 : ℚ) (w : List ℚ) :
    Except Unit Bool × List ℚ :=
  if T1 - Tend > 1 then (Except.ok false, w)
  else if w.length < maximal_list_len then (Except.ok false, w ++ [T3])
  else
    let w2 := w.drop (w.length - maximal_list_len) ++ [T3]
    if fitFails then (Except.error (), w2)
    else if |polyfitSlope w2| < stability_rate then (Except.ok true, w2)
    else (Except.ok false, w2)

/-- The window `self._last_temperatures` after `k` calls of
`_check_temp_reached` that all pass the fast path and whose fit succeeds
(readings `T1 = Tend = 0`, `T3 = 0`), starting from the empty list set up
in `__init__`. -/
def windowAfter : ℕ → List ℚ
  | 0 => []
  | k + 1 => (checkTempReached false 0 0 0 (windowAfter k)).2

/-! ## The hysteresis-field phase state machine

`SMU2ProbeHSweep2636AIvB` (src/measurement/smu_2636A_2probe_hSweep_IvB.py).
`State` is the `Enum` of lines 27-36; `_switch_states_if_necessary`
(lines 119-170) is called once per orchestrator tick:

    try:
        field = self._mag.get_field()
    except Exception as e:
        print(...); traceback.print_exc()
    if not field:
        field = self._last_field
    self._last_field = field
    if self._state == self.State.START: ... (dispatch shown per branch below)

When `get_field()` raises, the except block only logs and the local
`field` is left unassigned, so `if not field` raises UnboundLocalError out
of the method; when `get_field()` returns `0.0` (falsy), `field` is
replaced by `self._last_field`. -/

/-- The `State` enum of `SMU2ProbeHSweep2636AIvB` (lines 27-36). -/
inductive State where
  | START
  | GOING_UP
  | HALTING_UP
  | GOING_DOWN
  | HALTING_DOWN
  | GOING_BACK_UP
  | HALTING_UP2
  | GOING_ZERO
  | DONE
  deriving DecidableEq

/-- The mutable state `_switch_states_if_necessary` touches: `self._state`,
`self._last_field`, and the stop flag `self._should_stop`. -/
structure MagState where
  state : State
  lastField : ℚ
  shouldStop : Bool
  deriving DecidableEq

/-- The effective field after the truthiness fallback `if not field:
field = self._last_field` (a float is falsy exactly when it is `0.0`). -/
def effField (f last : ℚ) : ℚ := if f = 0 then last else f

/-- The body of `_switch_states_if_necessary` after a successful
`get_field()` returning `f`: apply the truthiness fallback, store
`_last_field`, then dispatch on `self._state` (magnet set-point/sweep-mode
commands are pure device effects and not part of the tracked state). -/
def switchOk (maxField : ℚ) (f : ℚ) (s : MagState) : MagState :=
  let field := effField f s.lastField
  match s.state with
  | State.START => ⟨State.GOING_UP, field, s.shouldStop⟩
  | State.GOING_UP =>
    if |field - maxField| < 0.001 then ⟨State.HALTING_UP, field, s.shouldStop⟩
    else ⟨State.GOING_UP, field, s.shouldStop⟩
  | State.HALTING_UP => ⟨State.GOING_DOWN, field, s.shouldStop⟩
  | State.GOING_DOWN =>
    if |field - (-maxField)| < 0.001 then ⟨State.HALTING_DOWN, field, s.shouldStop⟩
    else ⟨State.GOING_DOWN, field, s.shouldStop⟩
  | State.HALTING_DOWN => ⟨State.GOING_BACK_UP, field, s.shouldStop⟩
  | State.GOING_BACK_UP =>
    if |field - maxField| < 0.001 then ⟨State.HALTING_UP2, field, s.shouldStop⟩
    else ⟨State.GOING_BACK_UP, field, s.shouldStop⟩
  | State.HALTING_UP2 => ⟨State.GOING_ZERO, field, s.shouldStop⟩
  | State.GOING_ZERO =>
    if |field| < 0.001 then ⟨State.DONE, field, s.shouldStop⟩
    else ⟨State.GOING_ZERO, field, s.shouldStop⟩
  | State.DONE => ⟨State.DONE, field, true⟩

/-- `_switch_states_if_necessary` with the outcome of `self._mag.get_field()`
made explicit: a raising read leaves the local `field` unassigned, so the
following `if not field` raises UnboundLocalError (`Except.error ()`). -/
def switchStates (maxField : ℚ) (read : Except Unit ℚ) (s : MagState) :
    Except Unit MagState :=
  match read with
  | Except.error _ => Except.error ()
  | Except.ok f => Except.ok (switchOk maxField f s)

/-- The state set up in `__init__` (lines 50-51): `self._state =
self.State.START`, `self._last_field = 0.0`, stop flag clear. -/
def initialMagState : MagState := ⟨State.START, 0, false⟩

/-- The machine state after one tick per listed field reading. -/
def runSteps (maxField : ℚ) (rs : List ℚ) (s : MagState) : MagState :=
  rs.foldl (fun t r => switchOk maxField r t) s

/-- The sequence of `self._state` values observed across ticks with the
listed successful field readings (the state before the first tick
included). -/
def traceFrom (maxField : ℚ) : List ℚ → MagState → List State
  | [], s => [s.state]
  | r :: rs, s => s.state :: traceFrom maxField rs (switchOk maxField r s)

/-! ## Helper lemmas -/

/-- An exception escapes the sweep loop only when some step's
`_measure_data_point` raised. -/
theorem smuLoop_exn_from_sample (sample : ℕ → Except Unit (ℚ × ℚ))
    (stop : ℕ → Bool) :
    ∀ (traj : List ℚ) (i0 : ℕ), (smuLoop sample stop traj i0).exn = true →
      ∃ i, i0 ≤ i ∧ i < i0 + traj.length ∧ sample i = Except.error () := by
  intro traj
  induction traj with
  | nil => intro i0 h; simp [smuLoop] at h
  | cons v rest ih =>
    intro i0 h
    by_cases hs : stop i0
    · simp [smuLoop, hs] at h
    · rcases he : sample i0 with e | p
      · exact ⟨i0, le_refl _, by simp, by cases e; exact he⟩
      · simp only [smuLoop, hs, if_false, he, Bool.false_eq_true] at h
        obtain ⟨i, h1, h2, h3⟩ := ih (i0 + 1) h
        exact ⟨i, by omega, by simp at h2 ⊢; omega, h3⟩

/-- Exact shape of a sweep-loop run cancelled after `k` steps, for the loop
starting at step `i0 ≤ k`: the steps up to `k` record and apply their
set-points, the check at step `k` emits `aborted` and breaks. -/
theorem smuLoop_cancelAfter (sample : ℕ → Except Unit (ℚ × ℚ)) (k : ℕ) :
    ∀ (traj : List ℚ) (i0 : ℕ), i0 ≤ k → k - i0 < traj.length →
      (∀ j, i0 ≤ j → j < k → ∃ p, sample j = Except.ok p) →
      smuLoop sample (cancelAfter k) traj i0 =
        ⟨k - i0, traj.take (k - i0), true, false, 0⟩ := by
  intro traj
  induction traj with
  | nil => intro i0 _ h2 _; simp at h2
  | cons v rest ih =>
    intro i0 h1 h2 h3
    rcases eq_or_lt_of_le h1 with rfl | hlt
    · simp [smuLoop, cancelAfter]
    · have hs : cancelAfter k i0 = false := by
        simp [cancelAfter]; omega
      obtain ⟨p, hp⟩ := h3 i0 (le_refl _) hlt
      have hrec := ih (i0 + 1) (by omega) (by simp at h2 ⊢; omega)
        (fun j hj hjk => h3 j (by omega) hjk)
      have hk : k - i0 = (k - (i0 + 1)) + 1 := by omega
      simp only [smuLoop, hs, if_false, hp, hrec, hk]
      simp [List.take]

/-- `np.polyfit` over eleven equal readings returns slope `0`. -/
theorem polyfitSlope_const (c : ℚ) :
    polyfitSlope [c, c, c, c, c, c, c, c, c, c, c] = 0 := by
  simp [polyfitSlope, List.range_succ]
  ring_nf
  exact Or.inl trivial

/-- GOING_UP tick with a truthy reading inside tolerance of `+max_field`. -/
theorem switchOk_GOING_UP_hit (M r l : ℚ) (b : Bool) (hr : r ≠ 0)
    (ht : |r - M| < 0.001) :
    switchOk M r ⟨State.GOING_UP, l, b⟩ = ⟨State.HALTING_UP, r, b⟩ := by
  simp [switchOk, effField, hr, ht]

/-- GOING_DOWN tick with a truthy reading inside tolerance of `-max_field`. -/
theorem switchOk_GOING_DOWN_hit (M r l : ℚ) (b : Bool) (hr : r ≠ 0)
    (ht : |r - (-M)| < 0.001) :
    switchOk M r ⟨State.GOING_DOWN, l, b⟩ = ⟨State.HALTING_DOWN, r, b⟩ := by
  have ht2 : |r + M| < 0.001 := by rwa [sub_neg_eq_add] at ht
  simp [switchOk, effField, hr, ht2]

/-- GOING_BACK_UP tick with a truthy reading inside tolerance of
`+max_field`. -/
theorem switchOk_GOING_BACK_UP_hit (M r l : ℚ) (b : Bool) (hr : r ≠ 0)
    (ht : |r - M| < 0.001) :
    switchOk M r ⟨State.GOING_BACK_UP, l, b⟩ = ⟨State.HALTING_UP2, r, b⟩ := by
  simp [switchOk, effField, hr, ht]

/-- GOING_ZERO tick with a truthy reading inside tolerance of zero. -/
theorem switchOk_GOING_ZERO_hit (M r l : ℚ) (b : Bool) (hr : r ≠ 0)
    (ht : |r| < 0.001) :
    switchOk M r ⟨State.GOING_ZERO, l, b⟩ = ⟨State.DONE, r, b⟩ := by
  simp [switchOk, effField, hr, ht]

/-! ## Claim C1 -/

/-- C1, counterexample: the claim says `_deinitialize_device` runs exactly
once on every exit path, including an exception raised during a
sample/step.  On the concrete one-point trajectory `[2]` with a
`_measure_data_point` that raises and the stop flag never set, the
exception escapes `_measure` and teardown runs zero times. -/
theorem smu_exception_path_skips_teardown :
    (smuMeasure (fun _ => Except.error ()) (fun _ => false) [2]).deinits = 0 ∧
    (smuMeasure (fun _ => Except.error ()) (fun _ => false) [2]).exn = true := by
  norm_num [smuMeasure, smuLoop]

/-- C1, amended: for every run of `SMU2Probe2636A._measure`, teardown
(`_deinitialize_device`) runs exactly once when no exception escapes the
loop (trajectory exhausted or cancellation), and zero times when one does;
an escaping exception only arises from a sample step that raised. -/
theorem smu_teardown_once_unless_exception (sample : ℕ → Except Unit (ℚ × ℚ))
    (stop : ℕ → Bool) (traj : List ℚ) :
    ((smuMeasure sample stop traj).exn = false →
      (smuMeasure sample stop traj).deinits = 1) ∧
    ((smuMeasure sample stop traj).exn = true →
      (smuMeasure sample stop traj).deinits = 0 ∧
      ∃ i, i < traj.length ∧ sample i = Except.error ()) := by
  constructor
  · intro h
    simp only [smuMeasure] at h ⊢
    simp [h]
  · intro h
    simp only [smuMeasure] at h ⊢
    refine ⟨by simp [h], ?_⟩
    obtain ⟨i, _, h2, h3⟩ := smuLoop_exn_from_sample sample stop traj 0 h
    exact ⟨i, by simpa using h2, h3⟩

/-! ## Claim C2 -/

/-- C2: if the cancellation flag is set after `k` completed steps of an
`n`-step trajectory (`k < n`, the first `k` samples succeeding), the run
applies exactly the first `k` set-points, records exactly `k` data points,
emits `aborted`, raises nothing, and tears down once. -/
theorem smu_cancel_after_k (sample : ℕ → Except Unit (ℚ × ℚ)) (k : ℕ)
    (traj : List ℚ) (hk : k < traj.length)
    (hok : ∀ j, j < k → ∃ p, sample j = Except.ok p) :
    smuMeasure sample (cancelAfter k) traj = ⟨k, traj.take k, true, false, 1⟩ := by
  have h := smuLoop_cancelAfter sample k traj 0 (Nat.zero_le _) (by omega)
    (fun j _ hj => hok j hj)
  simp only [smuMeasure, h]
  simp

/-- C2, witness: a 4-point trajectory cancelled after 2 completed steps
records exactly 2 points, applies the first 2 set-points, aborts, and
tears down once. -/
theorem smu_cancel_after_k_witness :
    smuMeasure (fun _ => Except.ok ((0 : ℚ), 0)) (cancelAfter 2) [0, 1, 2, 3]
      = ⟨2, [(0 : ℚ), 1], true, false, 1⟩ := by
  have h := smu_cancel_after_k (fun _ => Except.ok ((0 : ℚ), 0)) 2 [0, 1, 2, 3]
    (by norm_num) (fun j _ => ⟨((0 : ℚ), 0), rfl⟩)
  simpa using h

/-! ## Claim C3 -/

/-- C3, counterexample: the claim says a single sample failure is caught
and the loop continues on every measurement loop.  In
`SMU2Probe2636A._measure` there is no try/except around the sample step:
on the 2-point trajectory `[0, 1]` with the sample of step 0 raising, the
exception escapes (aborting the run), nothing is recorded, and the second
set-point is never applied. -/
theorem smu_sample_failure_aborts_run :
    (smuMeasure (fun _ => Except.error ()) (fun _ => false) [0, 1]).exn = true ∧
    (smuMeasure (fun _ => Except.error ()) (fun _ => false) [0, 1]).records = 0 ∧
    (smuMeasure (fun _ => Except.error ()) (fun _ => false) [0, 1]).setpoints
      = [(0 : ℚ)] := by
  norm_num [smuMeasure, smuLoop]

/-- C3, amended: in the while-based monitoring loops
(`SRS830RvTBlue._measure` and its near-duplicates) a failed
`_acquire_data_point` at tick `i` is caught and logged, the tick records
nothing, and the loop continues: if the next tick samples successfully and
reaches convergence, the run ends normally with that extra record and one
teardown.  (In `SMU2Probe2636A._measure` the failure instead propagates,
see the counterexample.) -/
theorem srs_sample_failure_loop_continues (acqOk reached : ℕ → Bool)
    (fuel i acc : ℕ) (h1 : acqOk i = false) (h2 : reached i = false)
    (h3 : acqOk (i + 1) = true) (h4 : reached (i + 1) = true) :
    srsLoop acqOk reached (fuel + 2) i acc = ⟨acc + 1, 1, false⟩ := by
  simp [srsLoop, h1, h2, h3, h4]

/-- C3, witness: a run whose tick 0 acquire fails and whose tick 1 acquires
and converges ends with exactly one record and one teardown. -/
theorem srs_sample_failure_loop_continues_witness :
    srsLoop (fun j => decide (j = 1)) (fun j => decide (j = 1)) 2 0 0
      = ⟨1, 1, false⟩ :=
  srs_sample_failure_loop_continues (fun j => decide (j = 1))
    (fun j => decide (j = 1)) 0 0 0 rfl rfl rfl rfl

/-! ## Claim C4 -/

/-- C4, counterexample: the claim says the window `_last_temperatures`
holds at most N = 10 samples.  Starting from the empty window, 11
consecutive in-tolerance calls (the code trims to the last 10 and then
appends) leave 11 samples in the window. -/
theorem window_grows_to_eleven :
    (windowAfter 11).length = 11 ∧ ¬ (windowAfter 11).length ≤ 10 := by
  norm_num [windowAfter, checkTempReached, maximal_list_len, apply_ite]

/-- C4, amended: across calls of `_check_temp_reached` the window holds at
most N + 1 = 11 samples: each call leaves the window unchanged (fast-path
rejection), appends one sample below capacity, or — at or above capacity
10 — first trims to the most recent 10 (evicting oldest first, FIFO) and
then appends, reaching length 11. -/
theorem window_trim_append_fifo_bound (fitFails : Bool) (T1 Tend T3 : ℚ)
    (w : List ℚ) :
    ((checkTempReached fitFails T1 Tend T3 w).2 = w ∨
     (w.length < 10 ∧ (checkTempReached fitFails T1 Tend T3 w).2 = w ++ [T3]) ∨
     (10 ≤ w.length ∧
       (checkTempReached fitFails T1 Tend T3 w).2 = w.drop (w.length - 10) ++ [T3])) ∧
    (w.length ≤ 11 → ((checkTempReached fitFails T1 Tend T3 w).2).length ≤ 11) := by
  by_cases h1 : |T1 - Tend| > 1
  · refine ⟨Or.inl (by simp [checkTempReached, h1]), fun h => ?_⟩
    simpa [checkTempReached, h1] using h
  · by_cases h2 : w.length < 10
    · refine ⟨Or.inr (Or.inl ⟨h2, by simp [checkTempReached, h1, h2, maximal_list_len]⟩),
        fun h => ?_⟩
      simp [checkTempReached, h1, h2, maximal_list_len]
      omega
    · have key : (checkTempReached fitFails T1 Tend T3 w).2
          = w.drop (w.length - 10) ++ [T3] := by
        cases fitFails
        · by_cases hs : |polyfitSlope (w.drop (w.length - 10) ++ [T3])| < stability_rate <;>
            simp [checkTempReached, h1, h2, maximal_list_len, hs]
        · simp [checkTempReached, h1, h2, maximal_list_len]
      refine ⟨Or.inr (Or.inr ⟨by omega, key⟩), fun _ => ?_⟩
      rw [key]
      simp
      omega

/-! ## Claim C5 -/

/-- C5, counterexample: the claim says every call whose control reading is
more than 1.0 from the target — above or below — reports not-reached and
appends nothing.  In `SMU2ProbeIvTBlue._check_temp_reached` the guard is
the signed `(T1 - end) > 1.0`: with `T1 = 0` and target `5` the absolute
distance is 5 > 1, yet the call falls through and appends the monitored
reading 7 to the empty window. -/
theorem ivt_below_target_consumes_window_slot :
    |(0 : ℚ) - 5| > 1 ∧ (checkTempReachedIvT false 0 5 7 []).2 = [(7 : ℚ)] := by
  norm_num [checkTempReachedIvT, maximal_list_len]

/-- C5, amended: the fast-path rejection with absolute distance holds for
`SRS830RvTBlue._check_temp_reached` (`np.abs(T1 - end) > 1.0`): above or
below the target it reports not-reached and leaves the window untouched.
In `SMU2ProbeIvTBlue._check_temp_reached` the guard is signed, so only
readings more than 1.0 *above* the target are rejected this way. -/
theorem fastpath_absolute_vs_signed (fitFails : Bool) (T1 Tend T3 : ℚ)
    (w : List ℚ) :
    (|T1 - Tend| > 1 →
      checkTempReached fitFails T1 Tend T3 w = (Except.ok false, w)) ∧
    (T1 - Tend > 1 →
      checkTempReachedIvT fitFails T1 Tend T3 w = (Except.ok false, w)) := by
  constructor <;> intro h <;> simp [checkTempReached, checkTempReachedIvT, h]

/-! ## Claim C6 -/

/-- C6: once the window is at capacity and the fit succeeds, the detector
returns reached iff the absolute least-squares slope of the trimmed window
plus the new reading is below `stability_rate = 0.1/120`; in particular a
window of ten constant readings extended by an equal reading reports
reached. -/
theorem slope_threshold_decides_reached (T1 Tend T3 : ℚ) (w : List ℚ) (c : ℚ)
    (h1 : |T1 - Tend| ≤ 1) (h2 : 10 ≤ w.length) :
    (checkTempReached false T1 Tend T3 w).1 =
      Except.ok (decide (|polyfitSlope (w.drop (w.length - 10) ++ [T3])| < stability_rate)) ∧
    (checkTempReached false T1 Tend c (List.replicate 10 c)).1 = Except.ok true := by
  have hng : ¬ (|T1 - Tend| > 1) := not_lt.mpr h1
  have hnl : ¬ (w.length < 10) := by omega
  constructor
  · by_cases hs : |polyfitSlope (List.drop (w.length - 10) w ++ [T3])| < stability_rate <;>
      simp [checkTempReached, hng, hnl, maximal_list_len, hs]
  · simp [checkTempReached, hng, maximal_list_len, polyfitSlope_const, stability_rate]
    norm_num

/-- C6, witness: at `T1 = Tend = 0` with a full window of ten readings `5`,
the detector returns the slope comparison verbatim, and with the new
reading also `5` (constant window) it reports reached. -/
theorem slope_threshold_decides_reached_witness :
    (checkTempReached false 0 0 0 (List.replicate 10 (5 : ℚ))).1 =
      Except.ok (decide (|polyfitSlope ((List.replicate 10 (5 : ℚ)).drop
        ((List.replicate 10 (5 : ℚ)).length - 10) ++ [0])| < stability_rate)) ∧
    (checkTempReached false 0 0 5 (List.replicate 10 (5 : ℚ))).1 = Except.ok true :=
  slope_threshold_decides_reached 0 0 0 (List.replicate 10 (5 : ℚ)) 5
    (by norm_num) (by simp)

/-! ## Claim C7 -/

/-- C7: the claim says a fit failure must not raise to the caller.  In the
code the except block around `np.polyfit` only logs, so the following
`np.abs(rate)` reads the never-assigned local `rate` and raises
UnboundLocalError: on a full in-tolerance window with a failing fit the
detector raises instead of reporting not-reached. -/
theorem fit_failure_raises_unbound_local :
    (checkTempReached true 0 0 0 (List.replicate 10 (0 : ℚ))).1
      = Except.error () := by
  norm_num [checkTempReached, maximal_list_len]

/-! ## Claim C8 -/

/-- C8: starting at START and fed one successful (truthy) field reading per
tick, where the readings of the three ramping phases and the
return-to-zero phase satisfy their `|field - target| < 0.001` tolerance,
the machine visits exactly the 9 states in their fixed order once each,
never skipping or revisiting, and the tick after DONE sets the stop flag
so the run terminates. -/
theorem phase_machine_visits_states_in_order (M r0 r1 r2 r3 r4 r5 r6 r7 r8 : ℚ)
    (h1 : r1 ≠ 0) (h1t : |r1 - M| < 0.001)
    (h3 : r3 ≠ 0) (h3t : |r3 - (-M)| < 0.001)
    (h5 : r5 ≠ 0) (h5t : |r5 - M| < 0.001)
    (h7 : r7 ≠ 0) (h7t : |r7| < 0.001) :
    traceFrom M [r0, r1, r2, r3, r4, r5, r6, r7] initialMagState =
      [State.START, State.GOING_UP, State.HALTING_UP, State.GOING_DOWN,
       State.HALTING_DOWN, State.GOING_BACK_UP, State.HALTING_UP2,
       State.GOING_ZERO, State.DONE] ∧
    (traceFrom M [r0, r1, r2, r3, r4, r5, r6, r7] initialMagState).Nodup ∧
    (switchOk M r8 (runSteps M [r0, r1, r2, r3, r4, r5, r6, r7] initialMagState)).shouldStop
      = true := by
  have e0 : switchOk M r0 ⟨State.START, 0, false⟩
      = ⟨State.GOING_UP, effField r0 0, false⟩ := rfl
  have e1 := switchOk_GOING_UP_hit M r1 (effField r0 0) false h1 h1t
  have e2 : switchOk M r2 ⟨State.HALTING_UP, r1, false⟩
      = ⟨State.GOING_DOWN, effField r2 r1, false⟩ := rfl
  have e3 := switchOk_GOING_DOWN_hit M r3 (effField r2 r1) false h3 h3t
  have e4 : switchOk M r4 ⟨State.HALTING_DOWN, r3, false⟩
      = ⟨State.GOING_BACK_UP, effField r4 r3, false⟩ := rfl
  have e5 := switchOk_GOING_BACK_UP_hit M r5 (effField r4 r3) false h5 h5t
  have e6 : switchOk M r6 ⟨State.HALTING_UP2, r5, false⟩
      = ⟨State.GOING_ZERO, effField r6 r5, false⟩ := rfl
  have e7 := switchOk_GOING_ZERO_hit M r7 (effField r6 r5) false h7 h7t
  have e8 : switchOk M r8 ⟨State.DONE, r7, false⟩
      = ⟨State.DONE, effField r8 r7, true⟩ := rfl
  have htr : traceFrom M [r0, r1, r2, r3, r4, r5, r6, r7] initialMagState =
      [State.START, State.GOING_UP, State.HALTING_UP, State.GOING_DOWN,
       State.HALTING_DOWN, State.GOING_BACK_UP, State.HALTING_UP2,
       State.GOING_ZERO, State.DONE] := by
    simp [traceFrom, initialMagState, e0, e1, e2, e3, e4, e5, e6, e7]
  refine ⟨htr, ?_, ?_⟩
  · rw [htr]; decide
  · simp [runSteps, initialMagState, e0, e1, e2, e3, e4, e5, e6, e7, e8]

/-- C8, witness: with `max_field = 1` and readings `0, 1, 0, -1, 0, 1, 0,
1/2000` (each ramping phase hit exactly, the zero phase hit by a nonzero
in-tolerance reading) the machine walks the 9 states in order and the next
tick stops the run. -/
theorem phase_machine_visits_states_in_order_witness :
    traceFrom 1 [0, 1, 0, -1, 0, 1, 0, 1/2000] initialMagState =
      [State.START, State.GOING_UP, State.HALTING_UP, State.GOING_DOWN,
       State.HALTING_DOWN, State.GOING_BACK_UP, State.HALTING_UP2,
       State.GOING_ZERO, State.DONE] ∧
    (traceFrom 1 [0, 1, 0, -1, 0, 1, 0, 1/2000] initialMagState).Nodup ∧
    (switchOk 1 0 (runSteps 1 [0, 1, 0, -1, 0, 1, 0, 1/2000] initialMagState)).shouldStop
      = true :=
  phase_machine_visits_states_in_order 1 0 1 0 (-1) 0 1 0 (1/2000) 0
    (by norm_num) (by norm_num) (by norm_num) (by norm_num)
    (by norm_num) (by norm_num) (by norm_num)
    (by rw [abs_of_pos (by norm_num : (0 : ℚ) < 1/2000)]; norm_num)

/-! ## Claim C9 -/

/-- C9: the claim says a failed field read falls back to the last known
value and never raises out of `_switch_states_if_necessary`.  In the code
the except block only logs and the local `field` stays unassigned, so the
following `if not field` raises UnboundLocalError in every state; a
successful read, by contrast, never raises. -/
theorem failed_field_read_raises (M : ℚ) (s : MagState) :
    switchStates M (Except.error ()) s = Except.error () ∧
    ∀ f : ℚ, switchStates M (Except.ok f) s = Except.ok (switchOk M f s) :=
  ⟨rfl, fun _ => rfl⟩

/-! ## Claim C10 -/

/-- C10: a tick whose field read returns exactly `0.0` behaves exactly as a
tick that read the previous `_last_field` (truthiness fallback), and from
GOING_ZERO the machine moves to DONE precisely on a nonzero reading within
`|v| < 0.001` or on a zero reading whose stale `_last_field` already
satisfies that bound. -/
theorem zero_field_read_uses_stale (M : ℚ) (s : MagState) (r l : ℚ) (b : Bool) :
    switchOk M 0 s = switchOk M s.lastField s ∧
    ((switchOk M r ⟨State.GOING_ZERO, l, b⟩).state = State.DONE ↔
      (r ≠ 0 ∧ |r| < 0.001) ∨ (r = 0 ∧ |l| < 0.001)) := by
  constructor
  · have h0 : effField 0 s.lastField = s.lastField := if_pos rfl
    have hl : effField s.lastField s.lastField = s.lastField := ite_self _
    simp only [switchOk, h0, hl]
  · by_cases hr : r = 0
    · subst hr
      simp only [switchOk, effField, if_pos rfl]
      by_cases hl : |l| < (0.001 : ℚ) <;> simp [hl]
    · simp only [switchOk, effField, if_neg hr]
      by_cases ht : |r| < (0.001 : ℚ) <;> simp [ht, hr]

end DasMess
